import Mathlib

/-!
Shallow embedding of the audio playback timeline controller of the `chart`
repository (source file `src/unnamed/part_001`, the `AudioPlayer` React
component).  Times, offsets and durations are modelled as rationals; the
`AudioContext`'s monotonic clock is passed to each operation as an explicit
`now` argument.  The `AudioContext` itself is created on component mount and
is assumed present and running throughout (its absence/suspension guards are
therefore not modelled).  Each `AudioBufferSourceNode` created by `playAudio`
is modelled as an `EngineRec` with a fresh id; the list `engines` records
every instance ever created so that "at most one live engine" is stateable.
-/

namespace Chart

/-- An immutable decoded audio buffer (`AudioBuffer`); only its `duration`
in seconds is relevant to the controller. -/
structure AudioSample where
  duration : ℚ
deriving DecidableEq, Repr

/-- A rendering engine instance (`AudioBufferSourceNode`): one-shot, created
and started once per `playAudio` call at a given `startOffset`. -/
structure EngineRec where
  id : Nat
  startOffset : ℚ
  stopped : Bool
deriving DecidableEq, Repr

/-- Raw platform `stop()` on an engine instance, under the pessimistic
platform model the source's `try/catch` guards against: stopping an
already-stopped instance reports an error. -/
def engineStopChecked (e : EngineRec) : Except Unit EngineRec :=
  if e.stopped then Except.error () else Except.ok { e with stopped := true }

/-- Catching stop inside `stopAudio` (source lines 58–63): the try/catch
around stop() and disconnect() swallows the "already stopped" error. -/
def engineStopCaught (e : EngineRec) : EngineRec :=
  match engineStopChecked e with
  | Except.ok e' => e'
  | Except.error _ => e

/-- The bare `sourceNodeRef.current.stop()` in `playAudio` (source line 99):
per the Web Audio API, `stop()` on a node whose `start()` has been called
does not throw, and every node stored in `sourceNodeRef` was started, so the
uncaught call simply marks the instance stopped. -/
def engineForceStop (e : EngineRec) : EngineRec := { e with stopped := true }

/-- The component's playback state: React state (`isPlaying`, `progress`,
the latter in percent 0–100) and refs (`sourceNodeRef`, `startTimeRef`,
`pauseTimeRef`, `animationFrameRef`), plus the `audioBuffer` prop, the
log of created engine instances and a fresh-id counter. -/
structure PlayerState where
  audioBuffer : Option AudioSample
  isPlaying : Bool
  progress : ℚ
  sourceNode : Option Nat
  startTime : ℚ
  pauseTime : ℚ
  animationFrame : Bool
  engines : List EngineRec
  nextId : Nat
deriving DecidableEq, Repr

/-- Component state on mount: no playback, zero offsets, no engine. -/
def initialState (buf : Option AudioSample) : PlayerState :=
  { audioBuffer := buf, isPlaying := false, progress := 0, sourceNode := none,
    startTime := 0, pauseTime := 0, animationFrame := false, engines := [],
    nextId := 0 }

/-- Source function `stopAudio` (lines 56–70): if a source node exists, stop and
disconnect it inside a try/catch that ignores "already stopped" errors and
null the ref; cancel any pending animation frame; clear `isPlaying`. -/
def stopAudio (s : PlayerState) : PlayerState :=
  let s1 :=
    match s.sourceNode with
    | none => s
    | some i =>
        { s with
          engines := s.engines.map (fun (e : EngineRec) =>
            if e.id = i then engineStopCaught e else e),
          sourceNode := none }
  { s1 with animationFrame := false, isPlaying := false }

/-- Source function `updateProgress` (lines 72–87): a tick of the progress loop at
clock reading `now`.  Returns unchanged if no source node or no buffer.
Computes `elapsedTime = now - startTime` and
`currentProgress = elapsedTime / duration * 100`; if at least 100, sets
progress to 100, tears down via `stopAudio`, and resets `pauseTime` to 0;
otherwise publishes `currentProgress` and schedules the next frame. -/
def updateProgress (now : ℚ) (s : PlayerState) : PlayerState :=
  match s.sourceNode, s.audioBuffer with
  | some _, some buf =>
      let elapsedTime := now - s.startTime
      let currentProgress := elapsedTime / buf.duration * 100
      if 100 ≤ currentProgress then
        let s1 := stopAudio { s with progress := 100 }
        { s1 with pauseTime := 0 }
      else
        { s with progress := currentProgress, animationFrame := true }
  | _, _ => s

/-- Source function `playAudio` (lines 89–115): no-op if no buffer is loaded (the
context is modelled as always present and running).  Stops any existing
source node (bare `stop()`, no catch), creates a new source bound to the
buffer, reads `offset = pauseTime`, records `startTime = now - offset`,
starts the source at `offset`, stores it in the ref, sets `isPlaying`, and
runs one synchronous `updateProgress` tick. -/
def playAudio (now : ℚ) (s : PlayerState) : PlayerState :=
  match s.audioBuffer with
  | none => s
  | some _ =>
      let s1 :=
        match s.sourceNode with
        | none => s
        | some i =>
            { s with
              engines := s.engines.map (fun (e : EngineRec) =>
                if e.id = i then engineForceStop e else e) }
      let offset := s1.pauseTime
      let s2 :=
        { s1 with
          startTime := now - offset,
          sourceNode := some s1.nextId,
          engines := s1.engines ++ [{ id := s1.nextId, startOffset := offset, stopped := false }],
          nextId := s1.nextId + 1,
          isPlaying := true }
      updateProgress now s2

/-- Source function `pauseAudio` (lines 117–129): computes `elapsed = now - startTime`,
stores it into `pauseTime`, tears down via `stopAudio`, and (if a buffer is
loaded) keeps the progress visible as `elapsed / duration * 100`. -/
def pauseAudio (now : ℚ) (s : PlayerState) : PlayerState :=
  let elapsed := now - s.startTime
  let s1 := stopAudio { s with pauseTime := elapsed }
  match s1.audioBuffer with
  | some buf => { s1 with progress := elapsed / buf.duration * 100 }
  | none => s1

/-- Source function `resetAudio` (lines 131–135): `stopAudio` plus `pauseTime = 0`
and `progress = 0`. -/
def resetAudio (s : PlayerState) : PlayerState :=
  let s1 := stopAudio s
  { s1 with pauseTime := 0, progress := 0 }

/-- The `useEffect` on `audioBuffer` (source lines 138–140): when the buffer
prop changes the component re-renders with the new buffer and the effect
runs `resetAudio`. -/
def onSampleReplaced (buf : Option AudioSample) (s : PlayerState) : PlayerState :=
  resetAudio { s with audioBuffer := buf }

/-- Truncation toward zero, as performed implicitly by the JavaScript `%`
operator on numbers. -/
def ratTrunc (q : ℚ) : ℤ := if 0 ≤ q then ⌊q⌋ else ⌈q⌉

/-- The JavaScript remainder `a % b` (remainder of truncated division). -/
def jsRem (a b : ℚ) : ℚ := a - b * ratTrunc (a / b)

/-- JavaScript `String.prototype.padStart(2, c)`. -/
def padStart2 (c : Char) (str : String) : String :=
  if str.length < 2 then String.mk (List.replicate (2 - str.length) c) ++ str
  else str

/-- Source function `formatTime` (lines 307–311): `mins = Math.floor(seconds / 60)`,
`secs = Math.floor(seconds % 60)`, each rendered with `padStart(2, '0')`
and joined by a colon. -/
def formatTime (seconds : ℚ) : String :=
  let mins := ⌊seconds / 60⌋
  let secs := ⌊jsRem seconds 60⌋
  padStart2 '0' (toString mins) ++ ":" ++ padStart2 '0' (toString secs)

/-- The mm:ss label rendered next to the progress bar (source line 252)
reads `pauseTimeRef.current`, re-evaluated on every re-render. -/
def displayedClock (s : PlayerState) : String := formatTime s.pauseTime

/-- A transport/loop event, used to quantify over arbitrary interaction
sequences with the controller. -/
inductive Op where
  | play (now : ℚ)
  | pause (now : ℚ)
  | reset
  | tick (now : ℚ)
  | replace (buf : Option AudioSample)

/-- One controller event applied to the state. -/
def step (s : PlayerState) (op : Op) : PlayerState :=
  match op with
  | Op.play now => playAudio now s
  | Op.pause now => pauseAudio now s
  | Op.reset => resetAudio s
  | Op.tick now => updateProgress now s
  | Op.replace buf => onSampleReplaced buf s

/-- Run an event sequence from the mount state. -/
def run (buf : Option AudioSample) (ops : List Op) : PlayerState :=
  ops.foldl step (initialState buf)

/-- The engine instances created so far that have not been stopped. -/
def liveEngines (s : PlayerState) : List EngineRec :=
  s.engines.filter (fun (e : EngineRec) => e.stopped = false)

/-- Structural invariant tying the engine log to the refs: every logged
instance has an id below the fresh-id counter, any live instance is the one
the source-node ref points to, and at most one instance is live. -/
def EngInv (s : PlayerState) : Prop :=
  (∀ e ∈ s.engines, e.id < s.nextId) ∧
  (∀ e ∈ s.engines, e.stopped = false → s.sourceNode = some e.id) ∧
  (liveEngines s).length ≤ 1

/-- Caught stop preserves the instance id. -/
lemma engineStopCaught_id (e : EngineRec) : (engineStopCaught e).id = e.id := by
  unfold engineStopCaught engineStopChecked
  cases h : e.stopped <;> simp [h]

/-- Caught stop always leaves the instance stopped. -/
lemma engineStopCaught_stopped (e : EngineRec) : (engineStopCaught e).stopped = true := by
  unfold engineStopCaught engineStopChecked
  cases h : e.stopped <;> simp [h]

/-- Caught stop of an already-stopped instance is the identity: the raw stop
reports an error, and the catch discards it. -/
lemma engineStopCaught_of_stopped (e : EngineRec) (h : e.stopped = true) :
    engineStopCaught e = e := by
  unfold engineStopCaught engineStopChecked
  simp [h]

/-- Unfolding of `stopAudio` when no source node exists. -/
lemma stopAudio_of_none (s : PlayerState) (h : s.sourceNode = none) :
    stopAudio s = { s with animationFrame := false, isPlaying := false } := by
  simp [stopAudio, h]

/-- Unfolding of `stopAudio` when a source node exists. -/
lemma stopAudio_of_some (s : PlayerState) (i : Nat) (h : s.sourceNode = some i) :
    stopAudio s =
      { s with
        engines := s.engines.map (fun (e : EngineRec) =>
          if e.id = i then engineStopCaught e else e),
        sourceNode := none, animationFrame := false, isPlaying := false } := by
  simp [stopAudio, h]

/-- Teardown always nulls the source-node ref. -/
lemma stopAudio_sourceNode (s : PlayerState) : (stopAudio s).sourceNode = none := by
  unfold stopAudio; cases h : s.sourceNode <;> simp [h]

/-- Teardown always clears the playing flag. -/
lemma stopAudio_isPlaying (s : PlayerState) : (stopAudio s).isPlaying = false := by
  unfold stopAudio; cases h : s.sourceNode <;> simp [h]

/-- Teardown always cancels the pending animation frame. -/
lemma stopAudio_animationFrame (s : PlayerState) :
    (stopAudio s).animationFrame = false := by
  unfold stopAudio; cases h : s.sourceNode <;> simp [h]

/-- Teardown leaves the loaded buffer unchanged. -/
lemma stopAudio_audioBuffer (s : PlayerState) :
    (stopAudio s).audioBuffer = s.audioBuffer := by
  unfold stopAudio; cases h : s.sourceNode <;> simp [h]

/-- Teardown leaves the paused offset unchanged. -/
lemma stopAudio_pauseTime (s : PlayerState) : (stopAudio s).pauseTime = s.pauseTime := by
  unfold stopAudio; cases h : s.sourceNode <;> simp [h]

/-- Teardown leaves the reference clock start unchanged. -/
lemma stopAudio_startTime (s : PlayerState) : (stopAudio s).startTime = s.startTime := by
  unfold stopAudio; cases h : s.sourceNode <;> simp [h]

/-- Teardown leaves the published progress unchanged. -/
lemma stopAudio_progress (s : PlayerState) : (stopAudio s).progress = s.progress := by
  unfold stopAudio; cases h : s.sourceNode <;> simp [h]

/-- Teardown leaves the fresh-id counter unchanged. -/
lemma stopAudio_nextId (s : PlayerState) : (stopAudio s).nextId = s.nextId := by
  unfold stopAudio; cases h : s.sourceNode <;> simp [h]

/-- Unfolding of a non-final tick: progress is published and the next frame
is scheduled. -/
lemma updateProgress_tick (now : ℚ) (s : PlayerState) (buf : AudioSample) (i : Nat)
    (hb : s.audioBuffer = some buf) (hsn : s.sourceNode = some i)
    (hlt : ¬ 100 ≤ (now - s.startTime) / buf.duration * 100) :
    updateProgress now s =
      { s with
        progress := (now - s.startTime) / buf.duration * 100,
        animationFrame := true } := by
  unfold updateProgress
  rw [hb, hsn]
  simp [hlt]

/-- Unfolding of the final tick: progress is clamped to 100, playback is
torn down and the paused offset is reset to zero. -/
lemma updateProgress_complete (now : ℚ) (s : PlayerState) (buf : AudioSample) (i : Nat)
    (hb : s.audioBuffer = some buf) (hsn : s.sourceNode = some i)
    (hge : 100 ≤ (now - s.startTime) / buf.duration * 100) :
    updateProgress now s = { stopAudio { s with progress := 100 } with pauseTime := 0 } := by
  unfold updateProgress
  rw [hb, hsn]
  simp [hge]

/-- Ticks never touch the loaded buffer. -/
lemma updateProgress_audioBuffer (now : ℚ) (s : PlayerState) :
    (updateProgress now s).audioBuffer = s.audioBuffer := by
  unfold updateProgress
  cases h1 : s.sourceNode <;> cases h2 : s.audioBuffer <;> simp only [h1, h2]
  split
  · simp [stopAudio_audioBuffer]
  · rfl

/-- Unfolding of `pauseAudio` when a buffer is loaded. -/
lemma pauseAudio_eq (now : ℚ) (s : PlayerState) (buf : AudioSample)
    (hb : s.audioBuffer = some buf) :
    pauseAudio now s =
      { stopAudio { s with pauseTime := now - s.startTime } with
        progress := (now - s.startTime) / buf.duration * 100 } := by
  unfold pauseAudio
  dsimp only
  have h2 : (stopAudio { s with pauseTime := now - s.startTime }).audioBuffer = some buf := by
    rw [stopAudio_audioBuffer]; exact hb
  rw [h2]

/-- Unfolding of `pauseAudio` when no buffer is loaded. -/
lemma pauseAudio_eq_nobuf (now : ℚ) (s : PlayerState) (hb : s.audioBuffer = none) :
    pauseAudio now s = stopAudio { s with pauseTime := now - s.startTime } := by
  unfold pauseAudio
  dsimp only
  have h2 : (stopAudio { s with pauseTime := now - s.startTime }).audioBuffer = none := by
    rw [stopAudio_audioBuffer]; exact hb
  rw [h2]

/-- Pausing always stores `now - startTime` into the paused offset, whether
or not the session was active. -/
lemma pauseAudio_pauseTime (now : ℚ) (s : PlayerState) :
    (pauseAudio now s).pauseTime = now - s.startTime := by
  cases hb : s.audioBuffer with
  | none => rw [pauseAudio_eq_nobuf now s hb]; simp [stopAudio_pauseTime]
  | some buf => rw [pauseAudio_eq now s buf hb]; simp [stopAudio_pauseTime]

/-- Pausing always clears the playing flag. -/
lemma pauseAudio_isPlaying (now : ℚ) (s : PlayerState) :
    (pauseAudio now s).isPlaying = false := by
  cases hb : s.audioBuffer with
  | none => rw [pauseAudio_eq_nobuf now s hb]; simp [stopAudio_isPlaying]
  | some buf => rw [pauseAudio_eq now s buf hb]; simp [stopAudio_isPlaying]

/-- Pausing always nulls the source-node ref. -/
lemma pauseAudio_sourceNode (now : ℚ) (s : PlayerState) :
    (pauseAudio now s).sourceNode = none := by
  cases hb : s.audioBuffer with
  | none => rw [pauseAudio_eq_nobuf now s hb]; simp [stopAudio_sourceNode]
  | some buf => rw [pauseAudio_eq now s buf hb]; simp [stopAudio_sourceNode]

/-- Pausing always cancels the progress loop. -/
lemma pauseAudio_animationFrame (now : ℚ) (s : PlayerState) :
    (pauseAudio now s).animationFrame = false := by
  cases hb : s.audioBuffer with
  | none => rw [pauseAudio_eq_nobuf now s hb]; simp [stopAudio_animationFrame]
  | some buf => rw [pauseAudio_eq now s buf hb]; simp [stopAudio_animationFrame]

/-- Unfolding of `playAudio` when no source node exists and the initial tick
does not complete: a fresh engine is appended, started at the stored paused
offset, and the reference clock start is set to `now - pauseTime`. -/
lemma playAudio_eq_none (now : ℚ) (s : PlayerState) (buf : AudioSample)
    (hb : s.audioBuffer = some buf) (hsn : s.sourceNode = none)
    (hlt : ¬ 100 ≤ s.pauseTime / buf.duration * 100) :
    playAudio now s =
      { s with
        isPlaying := true,
        progress := s.pauseTime / buf.duration * 100,
        sourceNode := some s.nextId,
        startTime := now - s.pauseTime,
        animationFrame := true,
        engines := s.engines ++
          [{ id := s.nextId, startOffset := s.pauseTime, stopped := false }],
        nextId := s.nextId + 1 } := by
  unfold playAudio
  rw [hb, hsn]
  dsimp only
  have h1 : ({ s with
      isPlaying := true,
      startTime := now - s.pauseTime,
      sourceNode := some s.nextId,
      engines := s.engines ++
        [{ id := s.nextId, startOffset := s.pauseTime, stopped := false }],
      nextId := s.nextId + 1 } : PlayerState).audioBuffer = some buf := hb
  rw [updateProgress_tick now _ buf s.nextId h1 rfl (by simpa using hlt)]
  simp [sub_sub_cancel, hb]

/-- Unfolding of `playAudio` when a source node exists and the initial tick
does not complete: the old engine is force-stopped, and a fresh engine is
appended and started at the stored paused offset. -/
lemma playAudio_eq_some (now : ℚ) (s : PlayerState) (buf : AudioSample) (i : Nat)
    (hb : s.audioBuffer = some buf) (hsn : s.sourceNode = some i)
    (hlt : ¬ 100 ≤ s.pauseTime / buf.duration * 100) :
    playAudio now s =
      { s with
        isPlaying := true,
        progress := s.pauseTime / buf.duration * 100,
        sourceNode := some s.nextId,
        startTime := now - s.pauseTime,
        animationFrame := true,
        engines := (s.engines.map (fun (e : EngineRec) =>
          if e.id = i then engineForceStop e else e)) ++
          [{ id := s.nextId, startOffset := s.pauseTime, stopped := false }],
        nextId := s.nextId + 1 } := by
  unfold playAudio
  rw [hb, hsn]
  dsimp only
  have h1 : ({ s with
      audioBuffer := some buf,
      isPlaying := true,
      startTime := now - s.pauseTime,
      sourceNode := some s.nextId,
      engines := (s.engines.map (fun (e : EngineRec) =>
        if e.id = i then engineForceStop e else e)) ++
        [{ id := s.nextId, startOffset := s.pauseTime, stopped := false }],
      nextId := s.nextId + 1 } : PlayerState).audioBuffer = some buf := rfl
  rw [updateProgress_tick now _ buf s.nextId h1 rfl (by simpa using hlt)]
  simp [sub_sub_cancel, hb]

/-- Engine lists whose members are all stopped have no live member. -/
lemma filter_live_nil (l : List EngineRec) (h : ∀ e ∈ l, e.stopped = true) :
    l.filter (fun (e : EngineRec) => e.stopped = false) = [] := by
  rw [List.filter_eq_nil_iff]
  intro e he
  simp [h e he]

/-- Mapping a stopping function over the entry the ref points to stops every
live entry, provided live entries carry the ref's id. -/
lemma map_stop_all_stopped (l : List EngineRec) (i : Nat) (g : EngineRec → EngineRec)
    (hg : ∀ e, (g e).stopped = true)
    (hl : ∀ e ∈ l, e.stopped = false → e.id = i) :
    ∀ e ∈ l.map (fun (e : EngineRec) => if e.id = i then g e else e),
      e.stopped = true := by
  intro e he
  obtain ⟨a, ha, rfl⟩ := List.mem_map.mp he
  by_cases hid : a.id = i
  · rw [if_pos hid]; exact hg a
  · rw [if_neg hid]
    cases hst : a.stopped with
    | true => rfl
    | false => exact absurd (hl a ha hst) hid

/-- With no source node, invariant-tracked engine logs are fully stopped. -/
lemma all_stopped_of_none (s : PlayerState)
    (h2 : ∀ e ∈ s.engines, e.stopped = false → s.sourceNode = some e.id)
    (hsn : s.sourceNode = none) : ∀ e ∈ s.engines, e.stopped = true := by
  intro e he
  cases hst : e.stopped with
  | true => rfl
  | false =>
      have hc := h2 e he hst
      rw [hsn] at hc
      cases hc

/-- With a source node, invariant-tracked live engines carry the ref's id. -/
lemma live_id_of_some (s : PlayerState) (i : Nat)
    (h2 : ∀ e ∈ s.engines, e.stopped = false → s.sourceNode = some e.id)
    (hsn : s.sourceNode = some i) :
    ∀ e ∈ s.engines, e.stopped = false → e.id = i := by
  intro e he hf
  have hc := h2 e he hf
  rw [hsn] at hc
  exact (Option.some.inj hc).symm

/-- After teardown every logged engine is stopped, given that live engines
were tracked by the source-node ref. -/
lemma stopAudio_all_stopped (s : PlayerState)
    (h2 : ∀ e ∈ s.engines, e.stopped = false → s.sourceNode = some e.id) :
    ∀ e ∈ (stopAudio s).engines, e.stopped = true := by
  cases hsn : s.sourceNode with
  | none =>
      rw [stopAudio_of_none s hsn]
      exact all_stopped_of_none s h2 hsn
  | some i =>
      rw [stopAudio_of_some s i hsn]
      intro e he
      dsimp only at he
      exact map_stop_all_stopped s.engines i engineStopCaught
        (fun a => engineStopCaught_stopped a) (live_id_of_some s i h2 hsn) e he

/-- The engine invariant depends only on the engine log, the source-node ref
and the fresh-id counter. -/
lemma EngInv_of_eq_fields (s t : PlayerState) (he : t.engines = s.engines)
    (hn : t.nextId = s.nextId) (hs : t.sourceNode = s.sourceNode)
    (h : EngInv s) : EngInv t := by
  obtain ⟨h1, h2, h3⟩ := h
  refine ⟨?_, ?_, ?_⟩
  · intro e hei
    rw [he] at hei; rw [hn]; exact h1 e hei
  · intro e hei hf
    rw [he] at hei; rw [hs]; exact h2 e hei hf
  · unfold liveEngines at h3 ⊢
    rw [he]; exact h3

/-- Teardown preserves the engine invariant. -/
lemma EngInv_stopAudio (s : PlayerState) (h : EngInv s) : EngInv (stopAudio s) := by
  obtain ⟨h1, h2, _h3⟩ := h
  have hall := stopAudio_all_stopped s h2
  refine ⟨?_, ?_, ?_⟩
  · intro e he
    rw [stopAudio_nextId]
    cases hsn : s.sourceNode with
    | none =>
        rw [stopAudio_of_none s hsn] at he
        dsimp only at he
        exact h1 e he
    | some i =>
        rw [stopAudio_of_some s i hsn] at he
        dsimp only at he
        obtain ⟨a, ha, rfl⟩ := List.mem_map.mp he
        by_cases hid : a.id = i
        · rw [if_pos hid, engineStopCaught_id]
          exact h1 a ha
        · rw [if_neg hid]
          exact h1 a ha
  · intro e he hf
    rw [hall e he] at hf
    cases hf
  · unfold liveEngines
    rw [filter_live_nil _ hall]
    simp

/-- A tick preserves the engine invariant. -/
lemma EngInv_updateProgress (now : ℚ) (s : PlayerState) (h : EngInv s) :
    EngInv (updateProgress now s) := by
  unfold updateProgress
  cases h1 : s.sourceNode with
  | none => cases h2 : s.audioBuffer <;> simpa [h1, h2] using h
  | some i =>
      cases h2 : s.audioBuffer with
      | none => simpa [h1, h2] using h
      | some buf =>
          simp only [h1, h2]
          split
          · refine EngInv_of_eq_fields
              (stopAudio { s with
                audioBuffer := some buf, sourceNode := some i, progress := 100 }) _
              rfl rfl rfl ?_
            refine EngInv_stopAudio _ ?_
            exact EngInv_of_eq_fields s _ rfl rfl h1.symm h
          · exact EngInv_of_eq_fields s _ rfl rfl h1.symm h

/-- Starting playback preserves the engine invariant: the old engine gets
stopped before the single fresh engine is appended. -/
lemma EngInv_playAudio (now : ℚ) (s : PlayerState) (h : EngInv s) :
    EngInv (playAudio now s) := by
  obtain ⟨h1, h2, h3⟩ := h
  cases hb : s.audioBuffer with
  | none =>
      unfold playAudio; rw [hb]; exact ⟨h1, h2, h3⟩
  | some buf =>
      unfold playAudio
      rw [hb]
      dsimp only
      apply EngInv_updateProgress
      cases hsn : s.sourceNode with
      | none =>
          simp only [hsn]
          refine ⟨?_, ?_, ?_⟩
          · intro e he
            dsimp only at he ⊢
            rcases List.mem_append.mp he with hea | heb
            · exact Nat.lt_succ_of_lt (h1 e hea)
            · rw [List.mem_singleton] at heb
              subst heb
              exact Nat.lt_succ_self _
          · intro e he hf
            dsimp only at he hf ⊢
            rcases List.mem_append.mp he with hea | heb
            · exact absurd (all_stopped_of_none s h2 hsn e hea) (by simp [hf])
            · rw [List.mem_singleton] at heb
              subst heb
              rfl
          · unfold liveEngines
            dsimp only
            rw [List.filter_append,
              filter_live_nil _ (all_stopped_of_none s h2 hsn)]
            simp
      | some i =>
          simp only [hsn]
          have hstop := map_stop_all_stopped s.engines i engineForceStop
            (fun a => rfl) (live_id_of_some s i h2 hsn)
          refine ⟨?_, ?_, ?_⟩
          · intro e he
            dsimp only at he ⊢
            rcases List.mem_append.mp he with hea | heb
            · obtain ⟨a, ha, rfl⟩ := List.mem_map.mp hea
              by_cases hid : a.id = i
              · rw [if_pos hid]
                exact Nat.lt_succ_of_lt (h1 a ha)
              · rw [if_neg hid]
                exact Nat.lt_succ_of_lt (h1 a ha)
            · rw [List.mem_singleton] at heb
              subst heb
              exact Nat.lt_succ_self _
          · intro e he hf
            dsimp only at he hf ⊢
            rcases List.mem_append.mp he with hea | heb
            · exact absurd (hstop e hea) (by simp [hf])
            · rw [List.mem_singleton] at heb
              subst heb
              rfl
          · unfold liveEngines
            dsimp only
            rw [List.filter_append, filter_live_nil _ hstop]
            simp

/-- Pausing preserves the engine invariant. -/
lemma EngInv_pauseAudio (now : ℚ) (s : PlayerState) (h : EngInv s) :
    EngInv (pauseAudio now s) := by
  cases hb : s.audioBuffer with
  | none =>
      rw [pauseAudio_eq_nobuf now s hb]
      exact EngInv_stopAudio _ (EngInv_of_eq_fields s _ rfl rfl rfl h)
  | some buf =>
      rw [pauseAudio_eq now s buf hb]
      refine EngInv_of_eq_fields (stopAudio { s with pauseTime := now - s.startTime }) _
        rfl rfl rfl ?_
      exact EngInv_stopAudio _ (EngInv_of_eq_fields s _ rfl rfl rfl h)

/-- Resetting preserves the engine invariant. -/
lemma EngInv_resetAudio (s : PlayerState) (h : EngInv s) : EngInv (resetAudio s) := by
  unfold resetAudio
  dsimp only
  exact EngInv_of_eq_fields (stopAudio s) _ rfl rfl rfl (EngInv_stopAudio s h)

/-- Replacing the sample preserves the engine invariant. -/
lemma EngInv_onSampleReplaced (buf : Option AudioSample) (s : PlayerState)
    (h : EngInv s) : EngInv (onSampleReplaced buf s) := by
  unfold onSampleReplaced
  exact EngInv_resetAudio _ (EngInv_of_eq_fields s _ rfl rfl rfl h)

/-- Every controller event preserves the engine invariant. -/
lemma EngInv_step (s : PlayerState) (op : Op) (h : EngInv s) : EngInv (step s op) := by
  cases op with
  | play now => exact EngInv_playAudio now s h
  | pause now => exact EngInv_pauseAudio now s h
  | reset => exact EngInv_resetAudio s h
  | tick now => exact EngInv_updateProgress now s h
  | replace buf => exact EngInv_onSampleReplaced buf s h

/-- The mount state satisfies the engine invariant. -/
lemma EngInv_initialState (buf : Option AudioSample) : EngInv (initialState buf) := by
  unfold EngInv initialState liveEngines
  simp

/-- The engine invariant holds along any event sequence. -/
lemma EngInv_foldl (ops : List Op) (s : PlayerState) (h : EngInv s) :
    EngInv (ops.foldl step s) := by
  induction ops generalizing s with
  | nil => simpa using h
  | cons op rest ih =>
      rw [List.foldl_cons]
      exact ih (step s op) (EngInv_step s op h)

/-- Resetting clears the playing flag. -/
lemma resetAudio_isPlaying (s : PlayerState) : (resetAudio s).isPlaying = false := by
  simp [resetAudio, stopAudio_isPlaying]

/-- Resetting zeroes the paused offset. -/
lemma resetAudio_pauseTime (s : PlayerState) : (resetAudio s).pauseTime = 0 := by
  simp [resetAudio]

/-- Resetting zeroes the published progress. -/
lemma resetAudio_progress (s : PlayerState) : (resetAudio s).progress = 0 := by
  simp [resetAudio]

/-- Resetting nulls the source-node ref. -/
lemma resetAudio_sourceNode (s : PlayerState) : (resetAudio s).sourceNode = none := by
  simp [resetAudio, stopAudio_sourceNode]

/-- Resetting cancels the progress loop. -/
lemma resetAudio_animationFrame (s : PlayerState) :
    (resetAudio s).animationFrame = false := by
  simp [resetAudio, stopAudio_animationFrame]

/-- Resetting keeps the loaded buffer. -/
lemma resetAudio_audioBuffer (s : PlayerState) :
    (resetAudio s).audioBuffer = s.audioBuffer := by
  simp [resetAudio, stopAudio_audioBuffer]

/-- Resetting keeps the fresh-id counter. -/
lemma resetAudio_nextId (s : PlayerState) : (resetAudio s).nextId = s.nextId := by
  simp [resetAudio, stopAudio_nextId]

/-- Sample replacement clears the playing flag. -/
lemma onSampleReplaced_isPlaying (nb : Option AudioSample) (s : PlayerState) :
    (onSampleReplaced nb s).isPlaying = false := by
  unfold onSampleReplaced; exact resetAudio_isPlaying _

/-- Sample replacement zeroes the paused offset. -/
lemma onSampleReplaced_pauseTime (nb : Option AudioSample) (s : PlayerState) :
    (onSampleReplaced nb s).pauseTime = 0 := by
  unfold onSampleReplaced; exact resetAudio_pauseTime _

/-- Sample replacement zeroes the published progress. -/
lemma onSampleReplaced_progress (nb : Option AudioSample) (s : PlayerState) :
    (onSampleReplaced nb s).progress = 0 := by
  unfold onSampleReplaced; exact resetAudio_progress _

/-- Sample replacement nulls the source-node ref. -/
lemma onSampleReplaced_sourceNode (nb : Option AudioSample) (s : PlayerState) :
    (onSampleReplaced nb s).sourceNode = none := by
  unfold onSampleReplaced; exact resetAudio_sourceNode _

/-- Sample replacement cancels the progress loop. -/
lemma onSampleReplaced_animationFrame (nb : Option AudioSample) (s : PlayerState) :
    (onSampleReplaced nb s).animationFrame = false := by
  unfold onSampleReplaced; exact resetAudio_animationFrame _

/-- Sample replacement adopts the new buffer. -/
lemma onSampleReplaced_audioBuffer (nb : Option AudioSample) (s : PlayerState) :
    (onSampleReplaced nb s).audioBuffer = nb := by
  unfold onSampleReplaced
  rw [resetAudio_audioBuffer]

/-- For nonnegative arguments the JavaScript truncating remainder agrees
with the floor-based mathematical remainder. -/
lemma jsRem_eq_floor_mod (a b : ℚ) (ha : 0 ≤ a) (hb : 0 ≤ b) :
    jsRem a b = a - b * ⌊a / b⌋ := by
  unfold jsRem ratTrunc
  rw [if_pos (div_nonneg ha hb)]

/-- For nonnegative seconds, `formatTime` renders the floor of `s / 60` and
the floor of the mathematical remainder of `s` by 60. -/
lemma formatTime_eq_floor (s : ℚ) (hs : 0 ≤ s) :
    formatTime s = padStart2 '0' (toString ⌊s / 60⌋) ++ ":" ++
      padStart2 '0' (toString ⌊s - 60 * ⌊s / 60⌋⌋) := by
  unfold formatTime
  rw [jsRem_eq_floor_mod s 60 hs (by norm_num)]

/-- Padding to width two always yields at least two characters. -/
lemma two_le_padStart2_length (c : Char) (str : String) :
    2 ≤ (padStart2 c str).length := by
  unfold padStart2
  by_cases h : str.length < 2
  · rw [if_pos h, String.length_append]
    have h2 : (String.mk (List.replicate (2 - str.length) c)).length
        = 2 - str.length := List.length_replicate _ _
    omega
  · rw [if_neg h]
    omega

/-- C5: calling `play()` when no AudioSample is loaded is a silent no-op:
the state is returned unchanged — no engine is created, no session field
changes, and no error is surfaced. -/
theorem play_without_sample_noop (now : ℚ) (s : PlayerState)
    (h : s.audioBuffer = none) : playAudio now s = s := by
  unfold playAudio
  rw [h]

/-- Witness: C5 at the mount state with no sample loaded. -/
theorem play_without_sample_noop_witness :
    (initialState none).audioBuffer = none ∧
    playAudio 0 (initialState none) = initialState none :=
  ⟨rfl, play_without_sample_noop 0 (initialState none) rfl⟩

/-- C2: at most one rendering engine instance is live at any time, along
any sequence of play/pause/reset/tick/replace events from the mount state —
in particular under rapid repeated `play()` calls, since `play()` stops any
existing instance before creating a new one. -/
theorem at_most_one_live_engine (buf : Option AudioSample) (ops : List Op) :
    (liveEngines (run buf ops)).length ≤ 1 := by
  unfold run
  exact (EngInv_foldl ops _ (EngInv_initialState buf)).2.2

/-- C9: `formatTime` truncates fractional seconds rather than rounding: for
nonnegative `s` the rendered minutes are `⌊s / 60⌋` and the rendered seconds
are the floor of the mathematical remainder `s - 60⌊s/60⌋`; in particular
59.9 seconds formats as "00:59", not "01:00". -/
theorem formatTime_truncates (s : ℚ) (hs : 0 ≤ s) :
    formatTime s = padStart2 '0' (toString ⌊s / 60⌋) ++ ":" ++
      padStart2 '0' (toString ⌊s - 60 * ⌊s / 60⌋⌋) ∧
    formatTime ((599 : ℚ) / 10) = "00:59" ∧
    formatTime ((599 : ℚ) / 10) ≠ "01:00" := by
  refine ⟨formatTime_eq_floor s hs, ?_, ?_⟩
  · norm_num [formatTime, jsRem, ratTrunc]
    decide
  · norm_num [formatTime, jsRem, ratTrunc]
    decide

/-- Witness: C9 at 59.9 seconds. -/
theorem formatTime_truncates_witness :
    (0 : ℚ) ≤ (599 : ℚ) / 10 ∧
    (formatTime ((599 : ℚ) / 10) =
        padStart2 '0' (toString ⌊(599 : ℚ) / 10 / 60⌋) ++ ":" ++
        padStart2 '0' (toString ⌊(599 : ℚ) / 10 - 60 * ⌊(599 : ℚ) / 10 / 60⌋⌋) ∧
      formatTime ((599 : ℚ) / 10) = "00:59" ∧
      formatTime ((599 : ℚ) / 10) ≠ "01:00") :=
  ⟨by norm_num, formatTime_truncates ((599 : ℚ) / 10) (by norm_num)⟩

/-- C10: the formatter never rolls minutes into hours — for `s ≥ 3600`
the minutes field is the full `⌊s / 60⌋` (at least 60, rendered as is), both
fields are left-padded to at least two characters, and 3661 seconds formats
as "61:01". -/
theorem formatTime_minutes_not_rolled_over (s : ℚ) (hs : (3600 : ℚ) ≤ s) :
    formatTime s = padStart2 '0' (toString ⌊s / 60⌋) ++ ":" ++
      padStart2 '0' (toString ⌊s - 60 * ⌊s / 60⌋⌋) ∧
    60 ≤ ⌊s / 60⌋ ∧
    2 ≤ (padStart2 '0' (toString ⌊s / 60⌋)).length ∧
    2 ≤ (padStart2 '0' (toString ⌊s - 60 * ⌊s / 60⌋⌋)).length ∧
    formatTime (3661 : ℚ) = "61:01" := by
  have hs0 : (0 : ℚ) ≤ s := le_trans (by norm_num) hs
  refine ⟨formatTime_eq_floor s hs0, ?_, two_le_padStart2_length _ _,
    two_le_padStart2_length _ _, ?_⟩
  · rw [Int.le_floor]
    rw [le_div_iff₀ (by norm_num : (0 : ℚ) < 60)]
    push_cast
    linarith
  · norm_num [formatTime, jsRem, ratTrunc]
    decide

/-- Witness: C10 at 3661 seconds. -/
theorem formatTime_minutes_not_rolled_over_witness :
    (3600 : ℚ) ≤ (3661 : ℚ) ∧
    (formatTime (3661 : ℚ) =
        padStart2 '0' (toString ⌊(3661 : ℚ) / 60⌋) ++ ":" ++
        padStart2 '0' (toString ⌊(3661 : ℚ) - 60 * ⌊(3661 : ℚ) / 60⌋⌋) ∧
      60 ≤ ⌊(3661 : ℚ) / 60⌋ ∧
      2 ≤ (padStart2 '0' (toString ⌊(3661 : ℚ) / 60⌋)).length ∧
      2 ≤ (padStart2 '0' (toString ⌊(3661 : ℚ) - 60 * ⌊(3661 : ℚ) / 60⌋⌋)).length ∧
      formatTime (3661 : ℚ) = "61:01") :=
  ⟨by norm_num, formatTime_minutes_not_rolled_over (3661 : ℚ) (by norm_num)⟩

/-- C3: `reset()` — and sample replacement, which performs the same reset —
leaves the session in its initial transport state (not active, zero paused
offset, zero progress, no engine bound), and a following `play()` then
starts from the beginning: a fresh engine at offset 0 with
`referenceClockStart = now`. -/
theorem reset_and_replace_yield_initial (s : PlayerState) (nb : Option AudioSample)
    (buf : AudioSample) (now : ℚ) (hb : s.audioBuffer = some buf) :
    (resetAudio s).isPlaying = false ∧ (resetAudio s).pauseTime = 0 ∧
    (resetAudio s).progress = 0 ∧ (resetAudio s).sourceNode = none ∧
    (onSampleReplaced nb s).isPlaying = false ∧
    (onSampleReplaced nb s).pauseTime = 0 ∧
    (onSampleReplaced nb s).progress = 0 ∧
    (onSampleReplaced nb s).sourceNode = none ∧
    (onSampleReplaced nb s).audioBuffer = nb ∧
    (playAudio now (resetAudio s)).startTime = now ∧
    (playAudio now (resetAudio s)).engines.getLast? =
      some { id := s.nextId, startOffset := 0, stopped := false } := by
  have hb2 : (resetAudio s).audioBuffer = some buf := by
    rw [resetAudio_audioBuffer]; exact hb
  have hlt : ¬ 100 ≤ (resetAudio s).pauseTime / buf.duration * 100 := by
    rw [resetAudio_pauseTime]
    norm_num
  have hplay := playAudio_eq_none now (resetAudio s) buf hb2 (resetAudio_sourceNode s) hlt
  refine ⟨resetAudio_isPlaying s, resetAudio_pauseTime s, resetAudio_progress s,
    resetAudio_sourceNode s, onSampleReplaced_isPlaying nb s,
    onSampleReplaced_pauseTime nb s, onSampleReplaced_progress nb s,
    onSampleReplaced_sourceNode nb s, onSampleReplaced_audioBuffer nb s, ?_, ?_⟩
  · rw [hplay]
    simp [resetAudio_pauseTime]
  · rw [hplay]
    simp [resetAudio_pauseTime, resetAudio_nextId]

/-- Witness: C3 from the mount state with a 10-second sample. -/
theorem reset_and_replace_yield_initial_witness :
    (initialState (some ⟨10⟩)).audioBuffer = some ⟨10⟩ ∧
    ((resetAudio (initialState (some ⟨10⟩))).isPlaying = false ∧
      (resetAudio (initialState (some ⟨10⟩))).pauseTime = 0 ∧
      (resetAudio (initialState (some ⟨10⟩))).progress = 0 ∧
      (resetAudio (initialState (some ⟨10⟩))).sourceNode = none ∧
      (onSampleReplaced none (initialState (some ⟨10⟩))).isPlaying = false ∧
      (onSampleReplaced none (initialState (some ⟨10⟩))).pauseTime = 0 ∧
      (onSampleReplaced none (initialState (some ⟨10⟩))).progress = 0 ∧
      (onSampleReplaced none (initialState (some ⟨10⟩))).sourceNode = none ∧
      (onSampleReplaced none (initialState (some ⟨10⟩))).audioBuffer = none ∧
      (playAudio 5 (resetAudio (initialState (some ⟨10⟩)))).startTime = 5 ∧
      (playAudio 5 (resetAudio (initialState (some ⟨10⟩)))).engines.getLast? =
        some { id := (initialState (some ⟨10⟩)).nextId,
               startOffset := 0,
               stopped := false }) :=
  ⟨rfl, reset_and_replace_yield_initial (initialState (some ⟨10⟩)) none ⟨10⟩ 5 rfl⟩

/-- C7: teardown is safe when the rendering engine instance is already
stopped: the raw stop reports an "already stopped" error, `stopAudio`
swallows it locally and still completes the teardown (ref nulled, loop
cancelled, playing flag cleared, engine log untouched), and every teardown
path — pause, reset, sample replacement — likewise completes. -/
theorem teardown_swallows_already_stopped (s : PlayerState) (i : Nat) (now : ℚ)
    (nb : Option AudioSample) (hs : s.sourceNode = some i)
    (hstopped : ∀ e ∈ s.engines, e.id = i → e.stopped = true) :
    (∀ e : EngineRec, e.stopped = true → engineStopChecked e = Except.error ()) ∧
    stopAudio s =
      { s with sourceNode := none, animationFrame := false, isPlaying := false } ∧
    (pauseAudio now s).sourceNode = none ∧
    (pauseAudio now s).isPlaying = false ∧
    (pauseAudio now s).animationFrame = false ∧
    (resetAudio s).sourceNode = none ∧
    (resetAudio s).isPlaying = false ∧
    (resetAudio s).animationFrame = false ∧
    (onSampleReplaced nb s).sourceNode = none ∧
    (onSampleReplaced nb s).isPlaying = false ∧
    (onSampleReplaced nb s).animationFrame = false := by
  refine ⟨?_, ?_, pauseAudio_sourceNode now s, pauseAudio_isPlaying now s,
    pauseAudio_animationFrame now s, resetAudio_sourceNode s,
    resetAudio_isPlaying s, resetAudio_animationFrame s,
    onSampleReplaced_sourceNode nb s, onSampleReplaced_isPlaying nb s,
    onSampleReplaced_animationFrame nb s⟩
  · intro e he
    simp [engineStopChecked, he]
  · rw [stopAudio_of_some s i hs]
    have h1 : ∀ e ∈ s.engines,
        (if e.id = i then engineStopCaught e else e) = e := by
      intro e he
      by_cases hid : e.id = i
      · rw [if_pos hid, engineStopCaught_of_stopped e (hstopped e he hid)]
      · rw [if_neg hid]
    have hmap : s.engines.map (fun (e : EngineRec) =>
        if e.id = i then engineStopCaught e else e) = s.engines := by
      rw [List.map_congr_left h1]
      exact List.map_id s.engines
    rw [hmap]

/-- Witness: C7 on a state whose bound engine instance is already stopped. -/
theorem teardown_swallows_already_stopped_witness :
    ((⟨none, false, 0, some 0, 0, 0, false, [⟨0, 0, true⟩], 1⟩ :
      PlayerState).sourceNode = some 0) ∧
    (∀ e ∈ (⟨none, false, 0, some 0, 0, 0, false, [⟨0, 0, true⟩], 1⟩ :
      PlayerState).engines, e.id = 0 → e.stopped = true) ∧
    ((∀ e : EngineRec, e.stopped = true → engineStopChecked e = Except.error ()) ∧
      stopAudio (⟨none, false, 0, some 0, 0, 0, false, [⟨0, 0, true⟩], 1⟩ :
          PlayerState) =
        { (⟨none, false, 0, some 0, 0, 0, false, [⟨0, 0, true⟩], 1⟩ :
          PlayerState) with
          sourceNode := none, animationFrame := false, isPlaying := false } ∧
      (pauseAudio 2 (⟨none, false, 0, some 0, 0, 0, false, [⟨0, 0, true⟩], 1⟩ :
        PlayerState)).sourceNode = none ∧
      (pauseAudio 2 (⟨none, false, 0, some 0, 0, 0, false, [⟨0, 0, true⟩], 1⟩ :
        PlayerState)).isPlaying = false ∧
      (pauseAudio 2 (⟨none, false, 0, some 0, 0, 0, false, [⟨0, 0, true⟩], 1⟩ :
        PlayerState)).animationFrame = false ∧
      (resetAudio (⟨none, false, 0, some 0, 0, 0, false, [⟨0, 0, true⟩], 1⟩ :
        PlayerState)).sourceNode = none ∧
      (resetAudio (⟨none, false, 0, some 0, 0, 0, false, [⟨0, 0, true⟩], 1⟩ :
        PlayerState)).isPlaying = false ∧
      (resetAudio (⟨none, false, 0, some 0, 0, 0, false, [⟨0, 0, true⟩], 1⟩ :
        PlayerState)).animationFrame = false ∧
      (onSampleReplaced (some ⟨10⟩)
        (⟨none, false, 0, some 0, 0, 0, false, [⟨0, 0, true⟩], 1⟩ :
        PlayerState)).sourceNode = none ∧
      (onSampleReplaced (some ⟨10⟩)
        (⟨none, false, 0, some 0, 0, 0, false, [⟨0, 0, true⟩], 1⟩ :
        PlayerState)).isPlaying = false ∧
      (onSampleReplaced (some ⟨10⟩)
        (⟨none, false, 0, some 0, 0, 0, false, [⟨0, 0, true⟩], 1⟩ :
        PlayerState)).animationFrame = false) :=
  ⟨rfl,
    by
      intro e he hid
      rw [List.mem_singleton] at he
      subst he
      rfl,
    teardown_swallows_already_stopped
      (⟨none, false, 0, some 0, 0, 0, false, [⟨0, 0, true⟩], 1⟩ : PlayerState)
      0 2 (some ⟨10⟩) rfl
      (by
        intro e he hid
        rw [List.mem_singleton] at he
        subst he
        rfl)⟩

/-- C1: exact play/pause/resume timing.  From the mount state with a loaded
sample, `play()` at `t0` starts a fresh engine at offset 0 and records
`referenceClockStart = t0`; `pause()` after waiting `p` stores exactly `p`;
the next `play()` at `t1` starts its engine at offset `p` and records
`referenceClockStart = t1 - p`; a further `pause()` after a second run of
duration `q` stores exactly `p + q` — no time is double-counted or lost. -/
theorem play_pause_resume_timing (buf : AudioSample) (t0 t1 p q : ℚ)
    (hD : 0 < buf.duration) (_hp : 0 < p) (hpD : p < buf.duration) :
    (playAudio t0 (initialState (some buf))).startTime = t0 ∧
    (playAudio t0 (initialState (some buf))).engines =
      [{ id := 0, startOffset := 0, stopped := false }] ∧
    (pauseAudio (t0 + p) (playAudio t0 (initialState (some buf)))).pauseTime = p ∧
    (playAudio t1 (pauseAudio (t0 + p)
      (playAudio t0 (initialState (some buf))))).startTime = t1 - p ∧
    (playAudio t1 (pauseAudio (t0 + p)
      (playAudio t0 (initialState (some buf))))).engines.getLast? =
      some { id := 1, startOffset := p, stopped := false } ∧
    (pauseAudio (t1 + q) (playAudio t1 (pauseAudio (t0 + p)
      (playAudio t0 (initialState (some buf)))))).pauseTime = p + q := by
  have hlt0 : ¬ 100 ≤ (initialState (some buf)).pauseTime / buf.duration * 100 := by
    norm_num [initialState]
  have e1 : playAudio t0 (initialState (some buf)) =
      { audioBuffer := some buf, isPlaying := true, progress := 0,
        sourceNode := some 0, startTime := t0, pauseTime := 0,
        animationFrame := true,
        engines := [{ id := 0, startOffset := 0, stopped := false }],
        nextId := 1 } := by
    rw [playAudio_eq_none t0 _ buf rfl rfl hlt0]
    norm_num [initialState]
  have e2 : pauseAudio (t0 + p) (playAudio t0 (initialState (some buf))) =
      { audioBuffer := some buf, isPlaying := false,
        progress := p / buf.duration * 100, sourceNode := none,
        startTime := t0, pauseTime := p, animationFrame := false,
        engines := [{ id := 0, startOffset := 0, stopped := true }],
        nextId := 1 } := by
    rw [e1, pauseAudio_eq _ _ buf rfl, stopAudio_of_some _ 0 rfl]
    norm_num [engineStopCaught, engineStopChecked]
  have hlt2 : ¬ 100 ≤ p / buf.duration * 100 := by
    rw [not_le]
    have h1 : p / buf.duration < 1 := (div_lt_one hD).mpr hpD
    nlinarith
  have e3 : playAudio t1 (pauseAudio (t0 + p)
      (playAudio t0 (initialState (some buf)))) =
      { audioBuffer := some buf, isPlaying := true,
        progress := p / buf.duration * 100, sourceNode := some 1,
        startTime := t1 - p, pauseTime := p, animationFrame := true,
        engines := [{ id := 0, startOffset := 0, stopped := true },
          { id := 1, startOffset := p, stopped := false }],
        nextId := 2 } := by
    rw [e2, playAudio_eq_none t1 _ buf rfl rfl (by simpa using hlt2)]
    norm_num
  refine ⟨?_, ?_, ?_, ?_, ?_, ?_⟩
  · rw [e1]
  · rw [e1]
  · rw [pauseAudio_pauseTime, e1]
    ring
  · rw [e3]
  · rw [e3]
    rfl
  · rw [pauseAudio_pauseTime, e3]
    ring

/-- Witness: C1 on a 10-second sample, pausing at 3, resuming at clock 5 and
pausing again after 4 more seconds. -/
theorem play_pause_resume_timing_witness :
    (0 : ℚ) < (⟨10⟩ : AudioSample).duration ∧ (0 : ℚ) < 3 ∧
    (3 : ℚ) < (⟨10⟩ : AudioSample).duration ∧
    ((playAudio 0 (initialState (some ⟨10⟩))).startTime = 0 ∧
      (playAudio 0 (initialState (some ⟨10⟩))).engines =
        [{ id := 0, startOffset := 0, stopped := false }] ∧
      (pauseAudio (0 + 3) (playAudio 0 (initialState (some ⟨10⟩)))).pauseTime = 3 ∧
      (playAudio 5 (pauseAudio (0 + 3)
        (playAudio 0 (initialState (some ⟨10⟩))))).startTime = 5 - 3 ∧
      (playAudio 5 (pauseAudio (0 + 3)
        (playAudio 0 (initialState (some ⟨10⟩))))).engines.getLast? =
        some { id := 1, startOffset := 3, stopped := false } ∧
      (pauseAudio (5 + 4) (playAudio 5 (pauseAudio (0 + 3)
        (playAudio 0 (initialState (some ⟨10⟩)))))).pauseTime = 3 + 4) :=
  ⟨by norm_num, by norm_num, by norm_num,
    play_pause_resume_timing ⟨10⟩ 0 5 3 4 (by norm_num) (by norm_num) (by norm_num)⟩

/-- C4: when a tick observes a progress of at least 100% (fraction at least
1) on a loaded sample of positive duration, it clamps the published progress
to exactly 100% (fraction exactly 1), performs the same teardown as pause —
engine stopped, ref nulled, playing flag cleared — additionally resets the
paused offset to 0, schedules no further tick, and a subsequent `play()`
starts again from offset 0 with `referenceClockStart = now`. -/
theorem completion_tick_clamps_and_resets (s : PlayerState) (buf : AudioSample)
    (i : Nat) (t now : ℚ) (hb : s.audioBuffer = some buf)
    (hsn : s.sourceNode = some i) (_hD : 0 < buf.duration)
    (hge : 100 ≤ (now - s.startTime) / buf.duration * 100) :
    (updateProgress now s).progress = 100 ∧
    (updateProgress now s).progress / 100 = 1 ∧
    (updateProgress now s).isPlaying = false ∧
    (updateProgress now s).sourceNode = none ∧
    (updateProgress now s).animationFrame = false ∧
    (updateProgress now s).pauseTime = 0 ∧
    (∀ e ∈ (updateProgress now s).engines, e.id = i → e.stopped = true) ∧
    (playAudio t (updateProgress now s)).startTime = t ∧
    (playAudio t (updateProgress now s)).engines.getLast? =
      some { id := (updateProgress now s).nextId, startOffset := 0,
             stopped := false } := by
  have hupd := updateProgress_complete now s buf i hb hsn hge
  have hP : (updateProgress now s).progress = 100 := by
    rw [hupd]; simp [stopAudio_progress]
  have hPT : (updateProgress now s).pauseTime = 0 := by
    rw [hupd]
  have hSN : (updateProgress now s).sourceNode = none := by
    rw [hupd]; simp [stopAudio_sourceNode]
  have hAB : (updateProgress now s).audioBuffer = some buf := by
    rw [updateProgress_audioBuffer]; exact hb
  have hlt : ¬ 100 ≤ (updateProgress now s).pauseTime / buf.duration * 100 := by
    rw [hPT]; norm_num
  have hplay := playAudio_eq_none t (updateProgress now s) buf hAB hSN hlt
  refine ⟨hP, by rw [hP]; norm_num, ?_, hSN, ?_, hPT, ?_, ?_, ?_⟩
  · rw [hupd]; simp [stopAudio_isPlaying]
  · rw [hupd]; simp [stopAudio_animationFrame]
  · intro e he hid
    rw [hupd] at he
    have he2 : e ∈ (stopAudio { s with
        audioBuffer := some buf, sourceNode := some i, progress := 100 }).engines := by
      have hcast : ({ stopAudio { s with progress := 100 } with
          pauseTime := 0 } : PlayerState).engines =
          (stopAudio { s with
            audioBuffer := some buf, sourceNode := some i,
            progress := 100 }).engines := by
        rw [← hb, ← hsn]
      rw [hcast] at he
      exact he
    rw [stopAudio_of_some _ i rfl] at he2
    dsimp only at he2
    obtain ⟨a, _ha, rfl⟩ := List.mem_map.mp he2
    by_cases hid2 : a.id = i
    · rw [if_pos hid2]
      exact engineStopCaught_stopped a
    · rw [if_neg hid2] at hid ⊢
      exact absurd hid hid2
  · rw [hplay]
    simp [hPT]
  · rw [hplay]
    simp [hPT]

/-- Witness: C4 on a playing 10-second session ticking at clock 11, then
restarting at clock 12. -/
theorem completion_tick_clamps_and_resets_witness :
    ((⟨some ⟨10⟩, true, 0, some 0, 0, 0, true, [⟨0, 0, false⟩], 1⟩ :
      PlayerState).audioBuffer = some ⟨10⟩) ∧
    ((⟨some ⟨10⟩, true, 0, some 0, 0, 0, true, [⟨0, 0, false⟩], 1⟩ :
      PlayerState).sourceNode = some 0) ∧
    (0 : ℚ) < (⟨10⟩ : AudioSample).duration ∧
    (100 : ℚ) ≤ (11 - (⟨some ⟨10⟩, true, 0, some 0, 0, 0, true, [⟨0, 0, false⟩], 1⟩ :
      PlayerState).startTime) / (⟨10⟩ : AudioSample).duration * 100 ∧
    ((updateProgress 11 (⟨some ⟨10⟩, true, 0, some 0, 0, 0, true,
        [⟨0, 0, false⟩], 1⟩ : PlayerState)).progress = 100 ∧
      (updateProgress 11 (⟨some ⟨10⟩, true, 0, some 0, 0, 0, true,
        [⟨0, 0, false⟩], 1⟩ : PlayerState)).progress / 100 = 1 ∧
      (updateProgress 11 (⟨some ⟨10⟩, true, 0, some 0, 0, 0, true,
        [⟨0, 0, false⟩], 1⟩ : PlayerState)).isPlaying = false ∧
      (updateProgress 11 (⟨some ⟨10⟩, true, 0, some 0, 0, 0, true,
        [⟨0, 0, false⟩], 1⟩ : PlayerState)).sourceNode = none ∧
      (updateProgress 11 (⟨some ⟨10⟩, true, 0, some 0, 0, 0, true,
        [⟨0, 0, false⟩], 1⟩ : PlayerState)).animationFrame = false ∧
      (updateProgress 11 (⟨some ⟨10⟩, true, 0, some 0, 0, 0, true,
        [⟨0, 0, false⟩], 1⟩ : PlayerState)).pauseTime = 0 ∧
      (∀ e ∈ (updateProgress 11 (⟨some ⟨10⟩, true, 0, some 0, 0, 0, true,
        [⟨0, 0, false⟩], 1⟩ : PlayerState)).engines, e.id = 0 → e.stopped = true) ∧
      (playAudio 12 (updateProgress 11 (⟨some ⟨10⟩, true, 0, some 0, 0, 0, true,
        [⟨0, 0, false⟩], 1⟩ : PlayerState))).startTime = 12 ∧
      (playAudio 12 (updateProgress 11 (⟨some ⟨10⟩, true, 0, some 0, 0, 0, true,
        [⟨0, 0, false⟩], 1⟩ : PlayerState))).engines.getLast? =
        some { id := (updateProgress 11 (⟨some ⟨10⟩, true, 0, some 0, 0, 0, true,
                 [⟨0, 0, false⟩], 1⟩ : PlayerState)).nextId,
               startOffset := 0,
               stopped := false }) :=
  ⟨rfl, rfl, by norm_num, by norm_num,
    completion_tick_clamps_and_resets
      (⟨some ⟨10⟩, true, 0, some 0, 0, 0, true, [⟨0, 0, false⟩], 1⟩ : PlayerState)
      ⟨10⟩ 0 12 11 rfl rfl (by norm_num) (by norm_num)⟩

/-- C6 counterexample: the extra transport calls are not no-ops.  On a
10-second sample: after `play()` at 0 and `pause()` at 3 the stored offset
is 3, but a second `pause()` at 5 — while not active — overwrites it with 5,
so a later resume would skip ahead.  Likewise, after `play()` at 0 a second
`play()` at 5 — while already active — rewinds to the stored offset 0, so
the `pause()` at 6 stores 1 instead of the 6 it stores without the extra
call. -/
theorem extra_call_not_noop_counterexample :
    (pauseAudio 3 (playAudio 0 (initialState (some ⟨10⟩)))).isPlaying = false ∧
    (pauseAudio 3 (playAudio 0 (initialState (some ⟨10⟩)))).pauseTime = 3 ∧
    (pauseAudio 5 (pauseAudio 3 (playAudio 0 (initialState
      (some ⟨10⟩))))).pauseTime = 5 ∧
    (playAudio 0 (initialState (some ⟨10⟩))).isPlaying = true ∧
    (pauseAudio 6 (playAudio 0 (initialState (some ⟨10⟩)))).pauseTime = 6 ∧
    (pauseAudio 6 (playAudio 5 (playAudio 0 (initialState
      (some ⟨10⟩))))).pauseTime = 1 := by
  refine ⟨?_, ?_, ?_, ?_, ?_, ?_⟩ <;>
    norm_num [pauseAudio, playAudio, updateProgress, stopAudio, initialState,
      engineStopCaught, engineStopChecked, engineForceStop]

/-- C6 amended: calling `pause()` when not active is not a no-op — it
overwrites the stored offset with `now - referenceClockStart`, which keeps
advancing with the clock while paused; calling `play()` when already active
is not a no-op — it stops the current engine and restarts playback from the
stored paused offset, rewinding the position to the last pause point.
Neither call raises an error. -/
theorem extra_call_actual_behavior (s : PlayerState) (now : ℚ) (buf : AudioSample)
    (hb : s.audioBuffer = some buf) :
    (pauseAudio now s).pauseTime = now - s.startTime ∧
    (pauseAudio now s).isPlaying = false ∧
    (¬ 100 ≤ s.pauseTime / buf.duration * 100 →
      (playAudio now s).startTime = now - s.pauseTime ∧
      (playAudio now s).engines.getLast? =
        some { id := s.nextId, startOffset := s.pauseTime, stopped := false }) := by
  refine ⟨pauseAudio_pauseTime now s, pauseAudio_isPlaying now s, ?_⟩
  intro hlt
  cases hsn : s.sourceNode with
  | none =>
      rw [playAudio_eq_none now s buf hb hsn hlt]
      exact ⟨rfl, by simp⟩
  | some i =>
      rw [playAudio_eq_some now s buf i hb hsn hlt]
      exact ⟨rfl, by simp⟩

/-- Witness: C6 amended theorem on an active 10-second session. -/
theorem extra_call_actual_behavior_witness :
    ((⟨some ⟨10⟩, true, 0, some 0, 0, 2, true, [⟨0, 0, false⟩], 1⟩ :
      PlayerState).audioBuffer = some ⟨10⟩) ∧
    ((pauseAudio 7 (⟨some ⟨10⟩, true, 0, some 0, 0, 2, true, [⟨0, 0, false⟩], 1⟩ :
        PlayerState)).pauseTime =
        7 - (⟨some ⟨10⟩, true, 0, some 0, 0, 2, true, [⟨0, 0, false⟩], 1⟩ :
        PlayerState).startTime ∧
      (pauseAudio 7 (⟨some ⟨10⟩, true, 0, some 0, 0, 2, true, [⟨0, 0, false⟩], 1⟩ :
        PlayerState)).isPlaying = false ∧
      (¬ 100 ≤ (⟨some ⟨10⟩, true, 0, some 0, 0, 2, true, [⟨0, 0, false⟩], 1⟩ :
        PlayerState).pauseTime / (⟨10⟩ : AudioSample).duration * 100 →
        (playAudio 7 (⟨some ⟨10⟩, true, 0, some 0, 0, 2, true, [⟨0, 0, false⟩], 1⟩ :
          PlayerState)).startTime =
          7 - (⟨some ⟨10⟩, true, 0, some 0, 0, 2, true, [⟨0, 0, false⟩], 1⟩ :
          PlayerState).pauseTime ∧
        (playAudio 7 (⟨some ⟨10⟩, true, 0, some 0, 0, 2, true, [⟨0, 0, false⟩], 1⟩ :
          PlayerState)).engines.getLast? =
          some { id := (⟨some ⟨10⟩, true, 0, some 0, 0, 2, true,
                   [⟨0, 0, false⟩], 1⟩ : PlayerState).nextId,
                 startOffset := (⟨some ⟨10⟩, true, 0, some 0, 0, 2, true,
                   [⟨0, 0, false⟩], 1⟩ : PlayerState).pauseTime,
                 stopped := false })) :=
  ⟨rfl,
    extra_call_actual_behavior
      (⟨some ⟨10⟩, true, 0, some 0, 0, 2, true, [⟨0, 0, false⟩], 1⟩ : PlayerState)
      7 ⟨10⟩ rfl⟩

/-- C8 counterexample: the mm:ss label does not report the current elapsed
offset on a tick.  On a 10-second sample played from 0, the tick at clock 3
runs with an elapsed offset of 3 seconds (progress 30%), yet the label —
which renders `formatTime(pauseTimeRef.current)` — still shows "00:00"
rather than "00:03". -/
theorem displayed_clock_stale_counterexample :
    (updateProgress 3 (playAudio 0 (initialState (some ⟨10⟩)))).isPlaying = true ∧
    3 - (updateProgress 3 (playAudio 0 (initialState (some ⟨10⟩)))).startTime = 3 ∧
    (updateProgress 3 (playAudio 0 (initialState (some ⟨10⟩)))).progress = 30 ∧
    displayedClock (updateProgress 3 (playAudio 0 (initialState
      (some ⟨10⟩)))) = "00:00" ∧
    formatTime 3 = "00:03" ∧
    displayedClock (updateProgress 3 (playAudio 0 (initialState
      (some ⟨10⟩)))) ≠ formatTime 3 := by
  refine ⟨?_, ?_, ?_, ?_, ?_, ?_⟩ <;>
    norm_num [displayedClock, formatTime, jsRem, ratTrunc, updateProgress,
      playAudio, stopAudio, initialState] <;> decide

/-- C8 amended: while active, every tick publishes a progress whose fraction
`progress / 100` lies in [0, 1]; on a non-final tick the paused offset is
unchanged, so the mm:ss label next to the bar keeps showing
`formatTime(pausedOffset)` — the offset at which the current run started —
rather than the advancing elapsed time. -/
theorem tick_progress_bounds (s : PlayerState) (buf : AudioSample) (i : Nat)
    (now : ℚ) (hb : s.audioBuffer = some buf) (hsn : s.sourceNode = some i)
    (hD : 0 < buf.duration) (hnow : s.startTime ≤ now) :
    0 ≤ (updateProgress now s).progress / 100 ∧
    (updateProgress now s).progress / 100 ≤ 1 ∧
    (¬ 100 ≤ (now - s.startTime) / buf.duration * 100 →
      (updateProgress now s).progress = (now - s.startTime) / buf.duration * 100 ∧
      (updateProgress now s).pauseTime = s.pauseTime ∧
      displayedClock (updateProgress now s) = formatTime s.pauseTime) := by
  by_cases hge : 100 ≤ (now - s.startTime) / buf.duration * 100
  · have hupd := updateProgress_complete now s buf i hb hsn hge
    have hP : (updateProgress now s).progress = 100 := by
      rw [hupd]; simp [stopAudio_progress]
    rw [hP]
    refine ⟨by norm_num, by norm_num, ?_⟩
    intro hlt
    exact absurd hge hlt
  · have hupd := updateProgress_tick now s buf i hb hsn hge
    have hP : (updateProgress now s).progress =
        (now - s.startTime) / buf.duration * 100 := by
      rw [hupd]
    have h0 : 0 ≤ (now - s.startTime) / buf.duration * 100 :=
      mul_nonneg (div_nonneg (by linarith) (le_of_lt hD)) (by norm_num)
    have h100 : (now - s.startTime) / buf.duration * 100 < 100 := not_le.mp hge
    rw [hP]
    refine ⟨div_nonneg h0 (by norm_num), ?_, ?_⟩
    · rw [div_le_one (by norm_num : (0 : ℚ) < 100)]
      linarith
    · intro _
      refine ⟨rfl, ?_, ?_⟩
      · rw [hupd]
      · unfold displayedClock
        rw [hupd]

/-- Witness: C8 amended theorem on an active 10-second session ticking at
clock 3. -/
theorem tick_progress_bounds_witness :
    ((⟨some ⟨10⟩, true, 0, some 0, 0, 0, true, [⟨0, 0, false⟩], 1⟩ :
      PlayerState).audioBuffer = some ⟨10⟩) ∧
    ((⟨some ⟨10⟩, true, 0, some 0, 0, 0, true, [⟨0, 0, false⟩], 1⟩ :
      PlayerState).sourceNode = some 0) ∧
    (0 : ℚ) < (⟨10⟩ : AudioSample).duration ∧
    (⟨some ⟨10⟩, true, 0, some 0, 0, 0, true, [⟨0, 0, false⟩], 1⟩ :
      PlayerState).startTime ≤ (3 : ℚ) ∧
    (0 ≤ (updateProgress 3 (⟨some ⟨10⟩, true, 0, some 0, 0, 0, true,
        [⟨0, 0, false⟩], 1⟩ : PlayerState)).progress / 100 ∧
      (updateProgress 3 (⟨some ⟨10⟩, true, 0, some 0, 0, 0, true,
        [⟨0, 0, false⟩], 1⟩ : PlayerState)).progress / 100 ≤ 1 ∧
      (¬ 100 ≤ (3 - (⟨some ⟨10⟩, true, 0, some 0, 0, 0, true,
          [⟨0, 0, false⟩], 1⟩ : PlayerState).startTime) /
          (⟨10⟩ : AudioSample).duration * 100 →
        (updateProgress 3 (⟨some ⟨10⟩, true, 0, some 0, 0, 0, true,
          [⟨0, 0, false⟩], 1⟩ : PlayerState)).progress =
          (3 - (⟨some ⟨10⟩, true, 0, some 0, 0, 0, true,
            [⟨0, 0, false⟩], 1⟩ : PlayerState).startTime) /
            (⟨10⟩ : AudioSample).duration * 100 ∧
        (updateProgress 3 (⟨some ⟨10⟩, true, 0, some 0, 0, 0, true,
          [⟨0, 0, false⟩], 1⟩ : PlayerState)).pauseTime =
          (⟨some ⟨10⟩, true, 0, some 0, 0, 0, true,
            [⟨0, 0, false⟩], 1⟩ : PlayerState).pauseTime ∧
        displayedClock (updateProgress 3 (⟨some ⟨10⟩, true, 0, some 0, 0, 0, true,
          [⟨0, 0, false⟩], 1⟩ : PlayerState)) =
          formatTime (⟨some ⟨10⟩, true, 0, some 0, 0, 0, true,
            [⟨0, 0, false⟩], 1⟩ : PlayerState).pauseTime)) :=
  ⟨rfl, rfl, by norm_num, by norm_num,
    tick_progress_bounds
      (⟨some ⟨10⟩, true, 0, some 0, 0, 0, true, [⟨0, 0, false⟩], 1⟩ : PlayerState)
      ⟨10⟩ 0 3 rfl rfl (by norm_num) (by norm_num)⟩

end Chart
